import Mathlib

/-!
Verification of the ecsstatic vite plugin (src/package/vite.ts) against its
natural-language specification.

The TypeScript source is shallowly embedded: strings are Lean `String`s
(operated on char-wise, mirroring JavaScript string semantics on the BMP),
the per-file AST is a flat list of chunks (plain text, import declarations,
tagged-template sites) whose concatenation is the file's source text, and the
external collaborators (esbuild + node-eval execution, the postcss flattening
pass, Node's path module, the missing hash.js) are either parameters of the
embedded functions or small modelled stand-ins, each marked in its doc
comment.
-/

namespace Ecsstatic

/-! ## JavaScript string primitives (char-wise models) -/

/-- JS `String.prototype.trim` whitespace test, restricted to the characters
that can occur in the sources considered here (ASCII whitespace and NBSP). -/
def isJsWhitespace (c : Char) : Bool :=
  c == ' ' || c == '\t' || c == '\n' || c == '\r' || c == '\x0b' || c == '\x0c' || c == '\u00A0'

/-- JS `s.trim()`. -/
def jsTrim (s : String) : String :=
  String.mk (((s.data.dropWhile isJsWhitespace).reverse.dropWhile isJsWhitespace).reverse)

/-- Does the char list `p` lead (start) the char list `s`? -/
def leadsWith : List Char → List Char → Bool
  | [], _ => true
  | _ :: _, [] => false
  | a :: as, b :: bs => a == b && leadsWith as bs

/-- JS `s.startsWith(p)`. -/
def strLeadsWith (p s : String) : Bool := leadsWith p.data s.data

/-- JS `s.endsWith(p)`. -/
def strTrailsWith (p s : String) : Bool := leadsWith p.data.reverse s.data.reverse

/-- Is `n` a contiguous substring of `h` (JS regex literal test / `includes`)? -/
def isSubstrOf (n h : String) : Bool := go n.data h.data where
  go (nd : List Char) : List Char → Bool
    | [] => nd.isEmpty
    | c :: rest => leadsWith nd (c :: rest) || go nd rest

/-- JS `String.prototype.toLowerCase` on one char (ASCII range; the inputs
lower-cased by the plugin are class names and file paths). -/
def lowerChar (c : Char) : Char :=
  if 'A' ≤ c && c ≤ 'Z' then Char.ofNat (c.toNat + 32) else c

/-- JS `s.toLowerCase()`. -/
def strToLower (s : String) : String := String.mk (s.data.map lowerChar)

/-- JS `s.split(/\r\n|\r|\n/g)`: split into lines at CRLF, CR or LF. -/
def splitLinesGo : List Char → List Char → List String
  | [], acc => [String.mk acc.reverse]
  | '\r' :: '\n' :: rest, acc => String.mk acc.reverse :: splitLinesGo rest []
  | '\r' :: rest, acc => String.mk acc.reverse :: splitLinesGo rest []
  | '\n' :: rest, acc => String.mk acc.reverse :: splitLinesGo rest []
  | c :: rest, acc => splitLinesGo rest (c :: acc)

/-- JS `s.split(/\r\n|\r|\n/g)`. -/
def splitLines (s : String) : List String := splitLinesGo s.data []

/-- JS `s.slice(a, b)` for non-negative effective indices (the only use here is
`slice(1, length - 2)`; natural-number truncation agrees with the JS clamping
for every input length). -/
def jsSlice (s : String) (a b : Nat) : String :=
  String.mk ((s.data.drop a).take (b - a))

/-- JS `list.join(sep)` / Lean `String.intercalate`. -/
def joinWith (sep : String) (l : List String) : String := String.intercalate sep l

/-- `[id] = id.split('?')`: the part of the id before the first `?` (the
whole id when there is none). -/
def stripQuery (id : String) : String :=
  String.mk (id.data.takeWhile (fun c => c != '?'))

/-! ## External collaborators (modelled) -/

/-- Modelled from the spec: `hash` is imported from `./hash.js`, which is not
under src/. Per the spec it is a deterministic, non-cryptographic content hash
of the resolved CSS body, rendered as a short string and used as the class
name suffix. Modelled here as a djb2-style fold rendered in decimal; the
claims only depend on it being a function of its string argument. -/
def hash (s : String) : String :=
  toString (s.data.foldl (fun a c => (a * 33 + c.toNat) % 4294967296) 5381)

/-- Models Node's `path.dirname` for the forward-slash paths used here: the
path up to (excluding) the last separator (external collaborator). -/
def pathDirname (p : String) : String :=
  String.mk ((p.data.reverse.dropWhile (fun c => c != '/')).drop 1 |>.reverse)

/-- Models Node's `path.join` for the joins performed here (directory ++
filename, no dot-segment normalization needed by any claim; external
collaborator). -/
def pathJoin (a b : String) : String := a ++ "/" ++ b

/-- `normalizePath` from vite.ts: backslashes to slashes, then lower-case. -/
def normalizePath (original : String) : String :=
  strToLower (String.mk (original.data.map (fun c => if c == '\\' then '/' else c)))

/-! ## Data model -/

/-- A JavaScript runtime value, as far as the transform can observe one: the
expression evaluator may hand back a string or any non-string value (the
`as string` cast in `processTemplateLiteral` performs no runtime check). -/
inductive JSVal where
  | str : String → JSVal
  | num : Int → JSVal
  | noval : JSVal
deriving DecidableEq, Repr

/-- An import specifier of an ImportDeclaration (estree). -/
inductive Specifier where
  | named : (imported : String) → (localName : String) → Specifier
  | defaultSpec : (localName : String) → Specifier
  | namespaceSpec : (localName : String) → Specifier
deriving DecidableEq, Repr

/-- An ImportDeclaration: its source module and its specifiers. -/
structure ImportDecl where
  source : String
  specifiers : List Specifier
deriving DecidableEq, Repr

/-- A tagged-template site as located by `findCssTaggedTemplateLiterals`:
the tag identifier's name, the declared name inferred from the parent node
(`_originalName`), the raw text of the template literal including its
backtick delimiters (`code.slice(quasi.start, quasi.end)`), and the number of
interpolation expressions (`quasi.expressions.length`). -/
structure TemplateSite where
  tagName : String
  declaredName : Option String
  quasiRaw : String
  exprCount : Nat
deriving DecidableEq, Repr

/-- A file, shallowly embedded as a flat segmentation of its source text:
plain text runs, import statements (with their raw source text), and
tagged-template-expression spans (with their raw source text, covering tag
and template). Concatenating the raw texts yields the file. -/
inductive Chunk where
  | text : String → Chunk
  | imp : ImportDecl → (raw : String) → Chunk
  | tpl : TemplateSite → (raw : String) → Chunk
deriving DecidableEq, Repr

/-- The plugin `Options` type (vite.ts lines 15–51): exactly three fields,
all optional. -/
structure Options where
  evaluateExpressions : Option Bool := none
  resolveImports : Option Bool := none
  resolvePackages : Option (List String) := none

/-- Destructuring default: `evaluateExpressions = true`. -/
def optEvaluateExpressions (o : Options) : Bool := o.evaluateExpressions.getD true

/-- Destructuring default: `resolvePackages = []`. -/
def optResolvePackages (o : Options) : List String := o.resolvePackages.getD []

/-- Destructuring default: `resolveImports = evaluateExpressions &&
resolvePackages.length` (JS truthiness, modelled as a Bool). -/
def optResolveImports (o : Options) : Bool :=
  o.resolveImports.getD (optEvaluateExpressions o && !(optResolvePackages o).isEmpty)

/-! ## processCss -/

/-- Line classifier from `processCss`. -/
def isImportOrUse (line : String) : Bool :=
  strLeadsWith "@import" (jsTrim line) || strLeadsWith "@use" (jsTrim line)

/-- The external postcss flattening pass: a function from (isScss, assembled
pre-flattening css) to final css. The spec places the nesting/SCSS processors
out of scope, so the transform is parameterized over it. -/
def PostcssPass := Bool → String → String

/-- `processCss` from vite.ts: pulls `@import`/`@use` lines out, hashes the
full template contents, assembles `<directives>\n.<name>-<hash>{<rest>}` and
hands the assembly to the (external) postcss pass. Returns (css, className). -/
def processCss (postcssPass : PostcssPass) (templateContents originalName : String)
    (isScss : Bool) : String × String :=
  let importsAndUses :=
    jsTrim (joinWith "\n" ((splitLines templateContents).filter isImportOrUse))
  let codeWithoutImportsAndUses :=
    joinWith "\n" ((splitLines templateContents).filter (fun line => !isImportOrUse line))
  let className := originalName ++ "-" ++ hash templateContents
  let unprocessedCss :=
    importsAndUses ++ "\n." ++ className ++ "\x7b" ++ codeWithoutImportsAndUses ++ "\x7d"
  (postcssPass isScss unprocessedCss, className)

/-! ## Expression evaluation (evalWithEsbuild / processTemplateLiteral) -/

/-- The external program runner: esbuild's tree-shaking transform followed by
node-eval execution of the reduced program (both external collaborators,
spec §4.3 steps 2–3). It receives the synthetic program's text and returns
the exported value or a thrown error. -/
def RunProgram := String → Except String JSVal

/-- The `var` declarations emitted for the current generated-class bindings
(vite.ts lines 268–270). -/
def generatedClassesDecls (generatedClasses : List (String × String)) : String :=
  joinWith "\n" (generatedClasses.map (fun kv => "var " ++ kv.1 ++ " = \x27" ++ kv.2 ++ "\x27;"))

/-- The synthetic program handed to esbuild (vite.ts lines 272–276): the
outer-scope declarations, then the generated-class declarations, then the
final `module.exports = (<expression>);` line, with the template literal's
exact separators. -/
def syntheticProgram (expression allVarDeclarations : String)
    (generatedClasses : List (String × String)) : String :=
  allVarDeclarations ++ "\n\n\t\t" ++ generatedClassesDecls generatedClasses ++
    "\n\n\t\tmodule.exports = (" ++ expression ++ ");"

/-- `evalWithEsbuild`: builds the synthetic program and hands it to the
external runner (the filename argument `hash(expression)` and the node-eval
scope object do not affect the modelled result). -/
def evalWithEsbuild (run : RunProgram) (expression allVarDeclarations : String)
    (generatedClasses : List (String × String)) : Except String JSVal :=
  run (syntheticProgram expression allVarDeclarations generatedClasses)

/-- `processTemplateLiteral`: calls `evalWithEsbuild` and rethrows any thrown
error unchanged (the catch block only logs a fixed line to the console before
`throw err`). The `as string` cast performs no runtime check, so a non-string
result is returned as-is. -/
def processTemplateLiteral (run : RunProgram) (rawTemplate inlinedVars : String)
    (generatedClasses : List (String × String)) : Except String JSVal :=
  evalWithEsbuild run rawTemplate inlinedVars generatedClasses

/-- The JS TypeError raised when `processCss` calls `.split` on the non-string
`templateContents` that slipped through the unchecked cast. -/
def splitTypeError : String := "TypeError: templateContents.split is not a function"

/-- `processCss` as reached from `transform`: `templateContents` is typed as a
string but can be any runtime value; a non-string crashes at
`templateContents.split(...)` with a TypeError. -/
def processCssJS (postcssPass : PostcssPass) (v : JSVal) (originalName : String)
    (isScss : Bool) : Except String (String × String) :=
  match v with
  | .str s => .ok (processCss postcssPass s originalName isScss)
  | _ => .error splitTypeError

/-- The passthrough branch of `transform` (vite.ts line 167):
`rawTemplate.slice(1, rawTemplate.length - 2)`. -/
def passthroughContents (rawTemplate : String) : String :=
  jsSlice rawTemplate 1 (rawTemplate.length - 2)

/-- What the spec's no-interpolation passthrough sentence describes: the
template's literal text with exactly its two delimiters removed, character for
character. Stated from the spec's words, for comparison with
`passthroughContents`. -/
def delimitersRemoved (rawTemplate : String) : String :=
  String.mk ((rawTemplate.data.drop 1).take (rawTemplate.length - 2))

/-! ## findEcsstaticImports -/

/-- The result record of `findEcsstaticImports`; `statements` holds the chunk
indices of the import statements to delete. -/
structure ImportsInfo where
  cssImportName : Option String := none
  scssImportName : Option String := none
  statements : List Nat := []
deriving DecidableEq, Repr

/-- The `imported` field of a specifier: present only on named
ImportSpecifiers (estree). -/
def importedOf : Specifier → Option String
  | .named i _ => some i
  | .defaultSpec _ => none
  | .namespaceSpec _ => none

/-- The TypeError thrown by the unguarded destructuring
`({ imported }) => ... imported.name` when a specifier has no `imported`
field (default or namespace specifier). -/
def undefinedNameTypeError : String :=
  "TypeError: Cannot read properties of undefined (reading \x27name\x27)"

/-- `node.specifiers.some(({ imported }) => ['css','scss'].includes(imported.name))`,
including JS short-circuiting and the TypeError on a specifier without an
`imported` field. -/
def specSomeCssScss : List Specifier → Except String Bool
  | [] => .ok false
  | s :: rest =>
    match importedOf s with
    | none => .error undefinedNameTypeError
    | some nm => if nm == "css" || nm == "scss" then .ok true else specSomeCssScss rest

/-- The `forEach` body of `findEcsstaticImports`: record the local name of a
named `css` or `scss` specifier (later occurrences overwrite earlier ones). -/
def applySpec (info : ImportsInfo) (s : Specifier) : ImportsInfo :=
  match s with
  | .named imported localName =>
    let info1 := if imported == "css" then { info with cssImportName := some localName } else info
    if imported == "scss" then { info1 with scssImportName := some localName } else info1
  | _ => info

/-- The loop of `findEcsstaticImports` over the file's import declarations in
source order. -/
def findEcsstaticImportsGo : List (Nat × ImportDecl) → ImportsInfo → Except String ImportsInfo
  | [], info => .ok info
  | (idx, d) :: rest, info =>
    if d.source == "@acab/ecsstatic" then
      match specSomeCssScss d.specifiers with
      | .error e => .error e
      | .ok b =>
        let info1 := if b then { info with statements := info.statements ++ [idx] } else info
        findEcsstaticImportsGo rest (d.specifiers.foldl applySpec info1)
    else findEcsstaticImportsGo rest info

/-- The file's import declarations, with their chunk indices, in source
order (`ast.body.filter(node => node.type === 'ImportDeclaration')`). -/
def importDecls (chunks : List Chunk) : List (Nat × ImportDecl) :=
  chunks.enum.filterMap (fun ic =>
    match ic.2 with
    | .imp d _ => some (ic.1, d)
    | _ => none)

/-- `findEcsstaticImports` from vite.ts. -/
def findEcsstaticImports (chunks : List Chunk) : Except String ImportsInfo :=
  findEcsstaticImportsGo (importDecls chunks) {}

/-- `[cssImportName, scssImportName].filter(Boolean)`. -/
def tagNamesOf (info : ImportsInfo) : List String :=
  [info.cssImportName, info.scssImportName].filterMap (fun x => x)

/-- `findCssTaggedTemplateLiterals`: the template sites whose tag identifier
is one of the recognized local names, in source order, with their chunk
indices. -/
def matchedSites (chunks : List Chunk) (tagNames : List String) : List (Nat × TemplateSite) :=
  chunks.enum.filterMap (fun ic =>
    match ic.2 with
    | .tpl s _ => if tagNames.contains s.tagName then some (ic.1, s) else none
    | _ => none)

/-! ## The per-site loop of transform -/

/-- `node._originalName || '🎈'` (JS truthiness: an empty string also falls
back to the placeholder). -/
def originalNameOf (declaredName : Option String) : String :=
  match declaredName with
  | some n => if n == "" then "🎈" else n
  | none => "🎈"

/-- The hardcoded module-level constant from vite.ts line 64. -/
def useWhere : Bool := true

/-- The selector reference registered for a named site (vite.ts line 172):
`useWhere ? `:where(.${className})` : `.${className}``. -/
def selectorRefStr (className : String) : String :=
  if useWhere then ":where(." ++ className ++ ")" else "." ++ className

/-- JS `Map.has` on the insertion-ordered association list model. -/
def mapHas (m : List (String × String)) (k : String) : Bool :=
  m.any (fun kv => kv.1 == k)

/-- JS `Map.set`: overwrite in place if the key exists, else append. -/
def mapSet (m : List (String × String)) (k v : String) : List (String × String) :=
  if mapHas m k then m.map (fun kv => if kv.1 == k then (k, v) else kv) else m ++ [(k, v)]

/-- The mutable per-file state of the loop in `transform`: the lazily filled
`inlinedVars` and the `generatedClasses` map. -/
structure St where
  inlinedVars : String
  generatedClasses : List (String × String)
deriving DecidableEq, Repr

/-- What one loop iteration produces for its site: the generated class name,
the processed css, the registered stylesheet path, the imported filename, and
(for observability of the evaluation environment) the snapshot of
`generatedClasses` handed to expression resolution at this site. -/
structure SiteOut where
  idx : Nat
  className : String
  css : String
  cssPath : String
  cssFilename : String
  generatedClassesAtSite : List (String × String)
deriving DecidableEq, Repr

/-- The per-file constants of the loop in `transform`. -/
structure SiteCtx where
  evaluateExpressions : Bool
  resolveImports : Bool
  inlineResult : String
  run : RunProgram
  postcssPass : PostcssPass
  scssImportName : Option String
  fileId : String

/-- One iteration of the `for (const node of cssTemplateLiterals)` loop of
`transform` (vite.ts lines 150–184): lazily fill `inlinedVars` when needed,
resolve the template contents (expression evaluation or passthrough), compile
the css, register the generated-class binding for a named site, and compute
the stylesheet filename/path. -/
def processOneSite (ctx : SiteCtx) (idx : Nat) (site : TemplateSite) (st : St) :
    Except String (SiteOut × St) :=
  let st1 : St :=
    if site.exprCount != 0 && ctx.resolveImports && st.inlinedVars == "" then
      { st with inlinedVars := ctx.inlineResult }
    else st
  let originalName := originalNameOf site.declaredName
  let isScss := some site.tagName == ctx.scssImportName
  let rawTemplate := jsTrim site.quasiRaw
  let contents : Except String JSVal :=
    if ctx.evaluateExpressions && site.exprCount != 0 then
      processTemplateLiteral ctx.run rawTemplate st1.inlinedVars st1.generatedClasses
    else
      .ok (.str (passthroughContents rawTemplate))
  match contents with
  | .error e => .error e
  | .ok v =>
    match processCssJS ctx.postcssPass v originalName isScss with
    | .error e => .error e
    | .ok cssAndName =>
      let st2 : St :=
        if originalName != "🎈" then
          ⟨st1.inlinedVars, mapSet st1.generatedClasses originalName (selectorRefStr cssAndName.2)⟩
        else st1
      let extension := if isScss then "scss" else "css"
      let cssFilename := strToLower (cssAndName.2 ++ ".acab." ++ extension)
      let fullCssPath := normalizePath (pathJoin (pathDirname ctx.fileId) cssFilename)
      .ok (⟨idx, cssAndName.2, cssAndName.1, fullCssPath, cssFilename,
            st1.generatedClasses⟩, st2)

/-- The loop of `transform` over the matched sites in source order,
threading the per-file state through `processOneSite`; any thrown error
aborts the whole loop. -/
def processSites (ctx : SiteCtx) :
    List (Nat × TemplateSite) → St → Except String (List SiteOut × St)
  | [], st => .ok ([], st)
  | (idx, site) :: rest, st =>
    match processOneSite ctx idx site st with
    | .error e => .error e
    | .ok outAndSt =>
      match processSites ctx rest outAndSt.2 with
      | .error e => .error e
      | .ok r => .ok (outAndSt.1 :: r.1, r.2)

/-! ## Source rewriting and the transform hook -/

/-- The contribution of one chunk to the rewritten source: matched template
sites become their quoted class names, deleted import statements become
empty, everything else stays verbatim (the MagicString edits). -/
def chunkOut (deleted : List Nat) (outs : List SiteOut) : Nat × Chunk → String
  | (_, .text s) => s
  | (i, .imp _ raw) => if deleted.contains i then "" else raw
  | (i, .tpl _ raw) =>
    match outs.find? (fun o => o.idx == i) with
    | some o => "\"" ++ o.className ++ "\""
    | none => raw

/-- The rewritten source: the edited chunks in order, followed by the
stylesheet import lines appended per site (`magicCode.append`). -/
def render (chunks : List Chunk) (deleted : List Nat) (outs : List SiteOut) : String :=
  String.join (chunks.enum.map (chunkOut deleted outs)) ++
    String.join (outs.map (fun o => "import \"./" ++ o.cssFilename ++ "\";\n"))

/-- The file-extension filter `/(c|m)*(j|t)s(x)*$/`: after stripping trailing
`x` characters the id must end in `js` or `ts` (the leading `(c|m)*` imposes
no constraint). -/
def eligibleId (id : String) : Bool :=
  match id.data.reverse.dropWhile (fun c => c == 'x') with
  | 's' :: c :: _ => c == 'j' || c == 't'
  | _ => false

/-- The `transform` hook (vite.ts lines 127–193). Result: `.ok none` models
`return undefined` (file untouched, nothing registered); `.ok (some (code,
entries))` models a rewrite together with the `(fullCssPath, css)` pairs
written into the shared `cssList` registry; `.error e` models a thrown
exception (the whole file's transform fails, nothing is emitted). -/
def transform (options : Options) (run : RunProgram) (postcssPass : PostcssPass)
    (inlineResult : String) (fileId : String) (chunks : List Chunk) :
    Except String (Option (String × List (String × String))) :=
  let id := stripQuery fileId
  if isSubstrOf "node_modules" id then .ok none
  else if !eligibleId id then .ok none
  else
    match findEcsstaticImports chunks with
    | .error e => .error e
    | .ok info =>
      if info.statements.isEmpty then .ok none
      else
        let sites := matchedSites chunks (tagNamesOf info)
        if sites.isEmpty then .ok none
        else
          let ctx : SiteCtx :=
            { evaluateExpressions := optEvaluateExpressions options
              resolveImports := optResolveImports options
              inlineResult := inlineResult
              run := run
              postcssPass := postcssPass
              scssImportName := info.scssImportName
              fileId := id }
          match processSites ctx sites ⟨"", []⟩ with
          | .error e => .error e
          | .ok r =>
            .ok (some (render chunks info.statements r.1,
              r.1.map (fun o => (o.cssPath, o.css))))

/-! ## resolveId -/

/-- The `resolveId` hook (vite.ts lines 101–118): declines without an
importer; otherwise resolves ids ending in `css` against the registry,
relative to the importer and then to the vite root. `none` models both
`undefined` and `null` (decline). -/
def resolveId (cssList : List (String × String)) (root : String) (id : String)
    (importer : Option String) : Option String :=
  match importer with
  | none => none
  | some imp =>
    if strTrailsWith "css" id then
      let id1 := if strLeadsWith "." id then normalizePath (pathJoin (pathDirname imp) id) else id
      let id2 :=
        if !mapHas cssList id1 then
          normalizePath (pathJoin root
            (if strLeadsWith "/" id1 then String.mk (id1.data.drop 1) else id1))
        else id1
      if mapHas cssList id2 then some id2 else none
    else none

/-! ## Modelled evaluator semantics for declaration precedence -/

/-- One declaration step of the modelled evaluator: a `var` declaration of
the looked-up name overwrites the previously observed value. -/
def declUpd (n : String) (acc : Option String) (kv : String × String) : Option String :=
  if kv.1 == n then some kv.2 else acc

/-- Modelled from the spec: the external evaluator (esbuild + node-eval,
spec §4.3) executes the synthetic program's `var` declarations in textual
order, so a later declaration of a name takes precedence over an earlier one
("emitted after (a) so they take precedence over same-named outer bindings").
`lastDeclWins decls n` is the value the final expression observes for `n`. -/
def lastDeclWins (decls : List (String × String)) (n : String) : Option String :=
  decls.foldl (declUpd n) none

/-! ## Claim-side definitions (stated from the spec's words, for comparison) -/

/-- Spec §4.4 step 1: the body's `@import`/`@use` directive lines, in their
original relative order, joined and trimmed. -/
def directiveBlock (body : String) : String :=
  jsTrim (joinWith "\n" ((splitLines body).filter isImportOrUse))

/-- Spec §4.4 step 3: the non-directive lines of the body, joined. -/
def nonDirectiveBody (body : String) : String :=
  joinWith "\n" ((splitLines body).filter (fun line => !isImportOrUse line))

/-- Spec §4.4 step 3: `<directives>\n.<prefix>-<hash>{<non-directive body>}`,
with the directive block placed before the wrapping class rule and the hash
computed over the full body text. -/
def specAssembled (body name : String) : String :=
  directiveBlock body ++ "\n" ++
    ("." ++ (name ++ "-" ++ hash body) ++ "\x7b" ++ nonDirectiveBody body ++ "\x7d")

/-- The registration step of the per-site loop, as a function of a processed
(site, output) pair: a named site adds its selector reference to the
generated-class map. Shared by the loop invariants below. -/
def registerSite (acc : List (String × String)) (p : (Nat × TemplateSite) × SiteOut) :
    List (String × String) :=
  let originalName := originalNameOf p.1.2.declaredName
  if originalName != "🎈" then mapSet acc originalName (selectorRefStr p.2.className) else acc

/-! ## Concrete fixtures used by counterexamples and witnesses -/

/-- A postcss pass that returns the assembled css unchanged (any
`PostcssPass` would do for the facts proved below). -/
def idPostcss : PostcssPass := fun _ s => s

/-- A runner whose program execution yields `undefined`. -/
def runNoval : RunProgram := fun _ => .ok .noval

/-- A runner whose program execution yields the number 42 (a non-string). -/
def runNum : RunProgram := fun _ => .ok (.num 42)

/-- A runner whose program execution yields the string `color:blue`. -/
def runBlue : RunProgram := fun _ => .ok (.str "color:blue")

/-- A two-site file context for the forward-visibility witness. -/
def w3Ctx : SiteCtx :=
  { evaluateExpressions := true
    resolveImports := false
    inlineResult := ""
    run := runBlue
    postcssPass := idPostcss
    scssImportName := none
    fileId := "/src/app.jsx" }

/-- Two named sites: `box` (no interpolations) then `outer` (one
interpolation). -/
def w3Sites : List (Nat × TemplateSite) :=
  [(2, ⟨"css", some "box", "`color:red;`", 0⟩),
   (4, ⟨"css", some "outer", "`$\x7bbox\x7d span`", 1⟩)]

/-- A file whose only style-package import uses a default specifier. -/
def c8File : List Chunk :=
  [.imp ⟨"@acab/ecsstatic", [.defaultSpec "eco"]⟩ "import eco from \x27@acab/ecsstatic\x27;",
   .text "\nexport const n = 1;\n"]

/-- A file importing an unrelated package, with a `css`-tagged template that
matches no recognized alias. -/
def w8File : List Chunk :=
  [.imp ⟨"react", [.defaultSpec "React"]⟩ "import React from \x27react\x27;",
   .text "\nconst a = ",
   .tpl ⟨"css", some "a", "`color:red`", 0⟩ "css`color:red`",
   .text ";\n"]

/-- A file with one expression-bearing site whose evaluation yields a
non-string. -/
def c6File : List Chunk :=
  [.imp ⟨"@acab/ecsstatic", [.named "css" "css"]⟩ "import \x7b css \x7d from \x27@acab/ecsstatic\x27;",
   .text "\nconst a = ",
   .tpl ⟨"css", some "a", "`$\x7bx\x7dcolor`", 1⟩ "css`$\x7bx\x7dcolor`",
   .text ";\n"]

/-- The per-site context induced by plugin options `o` for the
configurability counterexample: one named, interpolation-free site. -/
def c7Ctx (o : Options) : SiteCtx :=
  { evaluateExpressions := optEvaluateExpressions o
    resolveImports := optResolveImports o
    inlineResult := ""
    run := runNoval
    postcssPass := idPostcss
    scssImportName := none
    fileId := "/src/app.jsx" }

/-- One named site with no interpolations. -/
def c7Site : TemplateSite := ⟨"css", some "box", "`color:red;`", 0⟩

/-- The file of the aliasing counterexample: the style package is imported
under local aliases `a` then `b` for the `css` role, and the only template
site is tagged with the earlier alias `a`. -/
def c9File : List Chunk :=
  [.imp ⟨"@acab/ecsstatic", [.named "css" "a"]⟩
      "import \x7b css as a \x7d from \x27@acab/ecsstatic\x27;",
   .imp ⟨"@acab/ecsstatic", [.named "css" "b"]⟩
      "import \x7b css as b \x7d from \x27@acab/ecsstatic\x27;",
   .text "\nconst x = ",
   .tpl ⟨"a", some "x", "`color:red`", 0⟩ "a`color:red`",
   .text ";\n"]

/-- The outputs of `processSites w3Ctx w3Sites ⟨"", []⟩`, written out. -/
def w3Outs : List SiteOut :=
  [⟨2, "box-" ++ hash "color:red", "\n.box-" ++ hash "color:red" ++ "\x7bcolor:red\x7d",
    "/src/box-" ++ hash "color:red" ++ ".acab.css",
    "box-" ++ hash "color:red" ++ ".acab.css", []⟩,
   ⟨4, "outer-" ++ hash "color:blue", "\n.outer-" ++ hash "color:blue" ++ "\x7bcolor:blue\x7d",
    "/src/outer-" ++ hash "color:blue" ++ ".acab.css",
    "outer-" ++ hash "color:blue" ++ ".acab.css",
    [("box", ":where(.box-" ++ hash "color:red" ++ ")")]⟩]

/-- The final loop state of `processSites w3Ctx w3Sites ⟨"", []⟩`. -/
def w3St : St :=
  ⟨"", [("box", ":where(.box-" ++ hash "color:red" ++ ")"),
        ("outer", ":where(.outer-" ++ hash "color:blue" ++ ")")]⟩

/-- A context whose evaluator yields the non-string 42 for every program. -/
def w6Ctx : SiteCtx :=
  { evaluateExpressions := true
    resolveImports := false
    inlineResult := ""
    run := runNum
    postcssPass := idPostcss
    scssImportName := none
    fileId := "/src/app.jsx" }

/-- A named site with one interpolation. -/
def w6Site : TemplateSite := ⟨"css", some "a", "`$\x7bx\x7d`", 1⟩

/-- The two-alias file family for the amended aliasing claim: aliases `a`
(earlier) and `b` (later) for the `css` role, a site tagged `a` with raw
source text `rawA`, and a site tagged `b`. -/
def c9Chunks (a b rawA : String) : List Chunk :=
  [.imp ⟨"@acab/ecsstatic", [.named "css" a]⟩ "IMPORT_A;",
   .imp ⟨"@acab/ecsstatic", [.named "css" b]⟩ "IMPORT_B;",
   .text "T0",
   .tpl ⟨a, some "x", "`x`", 0⟩ rawA,
   .text "T1",
   .tpl ⟨b, some "box", "`color:red;`", 0⟩ "RAW_B",
   .text "T2"]

/-- The per-site context that `transform` builds for the two-alias family
(default options, no scss import, file `/src/app.jsx`). -/
def c9Ctx : SiteCtx :=
  { evaluateExpressions := true
    resolveImports := false
    inlineResult := ""
    run := runNoval
    postcssPass := idPostcss
    scssImportName := none
    fileId := "/src/app.jsx" }

/-- The loop output for the `b`-tagged site of the two-alias family. -/
def c9OutB : SiteOut :=
  ⟨5, "box-" ++ hash "color:red",
   "\n.box-" ++ hash "color:red" ++ "\x7bcolor:red\x7d",
   "/src/box-" ++ hash "color:red" ++ ".acab.css",
   "box-" ++ hash "color:red" ++ ".acab.css", []⟩

/-- The stylesheet entry registered for the `b`-tagged site of the two-alias
family. -/
def c9Entry : String × String :=
  ("/src/box-" ++ hash "color:red" ++ ".acab.css",
   "\n.box-" ++ hash "color:red" ++ "\x7bcolor:red\x7d")

/-! ## Helper lemmas -/

theorem strDataAppend (a b : String) : (a ++ b).data = a.data ++ b.data := rfl

theorem foldl_declUpd_init (n : String) (decls : List (String × String)) :
    ∀ init, decls.foldl (declUpd n) init =
      match lastDeclWins decls n with
      | some v => some v
      | none => init := by
  induction decls with
  | nil => intro init; rfl
  | cons kv rest ih =>
    intro init
    show rest.foldl (declUpd n) (declUpd n init kv) =
      match (rest.foldl (declUpd n) (declUpd n none kv) : Option String) with
      | some v => some v
      | none => init
    rw [ih, ih]
    cases h : lastDeclWins rest n with
    | some v => rfl
    | none => cases hkv : (kv.1 == n) <;> simp [declUpd, hkv]

theorem processOneSite_ok (ctx : SiteCtx) (idx : Nat) (site : TemplateSite) (st : St)
    (out : SiteOut) (st2 : St) (h : processOneSite ctx idx site st = .ok (out, st2)) :
    out.generatedClassesAtSite = st.generatedClasses ∧
    st2.generatedClasses = registerSite st.generatedClasses ((idx, site), out) := by
  simp only [processOneSite] at h
  split at h
  · exact absurd h (by simp)
  · split at h
    · exact absurd h (by simp)
    · simp only [Except.ok.injEq, Prod.mk.injEq] at h
      obtain ⟨h1, h2⟩ := h
      subst h1
      subst h2
      constructor
      · show (if _ then _ else st).generatedClasses = st.generatedClasses
        split <;> rfl
      · simp only [registerSite]
        split_ifs <;> rfl

theorem processSites_snapshots (ctx : SiteCtx) (sites : List (Nat × TemplateSite)) :
    ∀ (st : St) (outs : List SiteOut) (stF : St),
      processSites ctx sites st = .ok (outs, stF) →
      outs.length = sites.length ∧
      stF.generatedClasses = (sites.zip outs).foldl registerSite st.generatedClasses ∧
      ∀ i (hi : i < outs.length),
        (outs.get ⟨i, hi⟩).generatedClassesAtSite =
          ((sites.take i).zip (outs.take i)).foldl registerSite st.generatedClasses := by
  induction sites with
  | nil =>
    intro st outs stF h
    simp only [processSites, Except.ok.injEq, Prod.mk.injEq] at h
    obtain ⟨h1, h2⟩ := h
    subst h1
    subst h2
    refine ⟨rfl, rfl, ?_⟩
    intro i hi
    exact absurd hi (by simp)
  | cons p rest ih =>
    intro st outs stF h
    obtain ⟨idx, site⟩ := p
    simp only [processSites] at h
    split at h
    · exact absurd h (by simp)
    · rename_i outAndSt hone
      obtain ⟨out, st2⟩ := outAndSt
      split at h
      · exact absurd h (by simp)
      · rename_i r hrec
        obtain ⟨outsR, stR⟩ := r
        simp only [Except.ok.injEq, Prod.mk.injEq] at h
        obtain ⟨h1, h2⟩ := h
        subst h1
        subst h2
        obtain ⟨hsnap1, hreg⟩ := processOneSite_ok ctx idx site st out st2 hone
        obtain ⟨ihlen, ihfold, ihsnap⟩ := ih st2 outsR stR hrec
        refine ⟨by simpa using ihlen, ?_, ?_⟩
        · rw [ihfold, hreg]
          simp [List.zip_cons_cons, List.foldl_cons]
        · intro i hi
          cases i with
          | zero => simpa using hsnap1
          | succ i =>
            have hi2 : i < outsR.length := by simpa using hi
            have := ihsnap i hi2
            simp only [List.get_cons_succ, List.take_succ_cons, List.zip_cons_cons,
              List.foldl_cons]
            rw [← hreg]
            exact this

theorem mapSet_fresh (m : List (String × String)) (k v : String)
    (h : mapHas m k = false) : mapSet m k v = m ++ [(k, v)] := by
  simp [mapSet, h]

theorem mapHas_append (a b : List (String × String)) (k : String) :
    mapHas (a ++ b) k = (mapHas a k || mapHas b k) := by
  simp [mapHas, List.any_append]

theorem foldl_registerSite_append (pairs : List ((Nat × TemplateSite) × SiteOut)) :
    ∀ init : List (String × String),
      (∀ q ∈ pairs, ∀ n, q.1.2.declaredName = some n →
        n ≠ "" ∧ n ≠ "🎈" ∧ mapHas init n = false) →
      (pairs.filterMap (fun q => q.1.2.declaredName)).Nodup →
      pairs.foldl registerSite init =
        init ++ pairs.filterMap
          (fun q => q.1.2.declaredName.map (fun n => (n, selectorRefStr q.2.className))) := by
  induction pairs with
  | nil => intro init _ _; simp
  | cons q rest ih =>
    intro init hvalid hnodup
    cases hd : q.1.2.declaredName with
    | none =>
      have hstep : registerSite init q = init := by
        simp [registerSite, originalNameOf, hd]
      rw [List.foldl_cons, hstep, List.filterMap_cons, hd]
      exact ih init (fun q2 hq2 => hvalid q2 (List.mem_cons_of_mem q hq2))
        (by simpa [List.filterMap_cons, hd] using hnodup)
    | some n =>
      obtain ⟨hne, hnb, hhas⟩ := hvalid q (List.mem_cons_self q rest) n hd
      have hnee : (n == "") = false := by simpa using hne
      have hnbb : (n != "🎈") = true := by simpa using hnb
      have hstep : registerSite init q =
          init ++ [(n, selectorRefStr q.2.className)] := by
        simp only [registerSite, originalNameOf, hd, hnee, Bool.false_eq_true, if_false, hnbb,
          if_true]
        exact mapSet_fresh init n _ hhas
      have hnodup2 : n :: rest.filterMap (fun q2 => q2.1.2.declaredName) =
          (q :: rest).filterMap (fun q2 => q2.1.2.declaredName) := by
        simp [List.filterMap_cons, hd]
      have hnotin : n ∉ rest.filterMap (fun q2 => q2.1.2.declaredName) := by
        have := hnodup
        rw [← hnodup2] at this
        exact (List.nodup_cons.mp this).1
      rw [List.foldl_cons, hstep, List.filterMap_cons, hd]
      rw [ih (init ++ [(n, selectorRefStr q.2.className)]) ?hv ?hn]
      · simp
      case hv =>
        intro q2 hq2 n2 hd2
        obtain ⟨a, b, c⟩ := hvalid q2 (List.mem_cons_of_mem q hq2) n2 hd2
        refine ⟨a, b, ?_⟩
        rw [mapHas_append, c]
        have : n2 ≠ n := by
          intro hEq
          subst hEq
          exact hnotin (List.mem_filterMap.mpr ⟨q2, hq2, hd2⟩)
        simp [mapHas, this.symm]
      case hn =>
        rw [← hnodup2] at hnodup
        exact (List.nodup_cons.mp hnodup).2

/-- C3: the evaluation environment handed to a site's expression resolution
contains exactly the generated-class bindings of the named sites discovered
earlier in source order in the same file — the loop starts from an empty map
(no cross-file bindings), and the site's own binding and all later bindings
are absent. Stated under the JS-identifier well-formedness assumptions that
no declared name is empty or the placeholder, and that the file's declared
names are pairwise distinct. -/
theorem c3_forward_only_visibility (ctx : SiteCtx) (sites : List (Nat × TemplateSite))
    (iv : String) (outs : List SiteOut) (stF : St)
    (hok : processSites ctx sites ⟨iv, []⟩ = .ok (outs, stF))
    (hvalid : ∀ q ∈ sites, ∀ n, q.2.declaredName = some n → n ≠ "" ∧ n ≠ "🎈")
    (hnodup : (sites.filterMap (fun q => q.2.declaredName)).Nodup) :
    ∀ i (hi : i < outs.length),
      (outs.get ⟨i, hi⟩).generatedClassesAtSite =
        ((sites.take i).zip (outs.take i)).filterMap
          (fun q => q.1.2.declaredName.map (fun n => (n, selectorRefStr q.2.className))) := by
  intro i hi
  obtain ⟨hlen, _, hsnap⟩ := processSites_snapshots ctx sites ⟨iv, []⟩ outs stF hok
  rw [hsnap i hi]
  have hzmap : ((sites.take i).zip (outs.take i)).map Prod.fst = sites.take i :=
    List.map_fst_zip _ _ (by rw [List.length_take, List.length_take, hlen])
  have hfm : ((sites.take i).zip (outs.take i)).filterMap (fun q => q.1.2.declaredName) =
      (sites.take i).filterMap (fun q => q.2.declaredName) := by
    conv_rhs => rw [← hzmap]
    rw [List.filterMap_map]
    rfl
  rw [foldl_registerSite_append _ [] ?hv ?hn]
  · simp
  case hv =>
    intro q hq n hd
    have hmem : q.1 ∈ sites.take i := by
      have h2 := List.of_mem_zip (by simpa using hq)
      exact h2.1
    have hmem2 : q.1 ∈ sites := List.take_subset i sites hmem
    obtain ⟨a, b⟩ := hvalid q.1 hmem2 n hd
    exact ⟨a, b, rfl⟩
  case hn =>
    rw [hfm]
    exact hnodup.sublist ((List.take_sublist i sites).filterMap _)

/-- Witness for C3 on a concrete two-site file: the second site's
environment holds exactly the first site's binding. -/
theorem c3_witness :
    processSites w3Ctx w3Sites ⟨"", []⟩ = .ok (w3Outs, w3St) ∧
    (w3Outs.get ⟨1, by decide⟩).generatedClassesAtSite =
      [("box", selectorRefStr ("box-" ++ hash "color:red"))] := by
  have hok : processSites w3Ctx w3Sites ⟨"", []⟩ = .ok (w3Outs, w3St) := by rfl
  refine ⟨hok, ?_⟩
  have hvalid : ∀ q ∈ w3Sites, ∀ n, q.2.declaredName = some n → n ≠ "" ∧ n ≠ "🎈" := by
    intro q hq n hd
    simp only [w3Sites, List.mem_cons, List.not_mem_nil, or_false] at hq
    rcases hq with h | h <;> subst h <;>
      (injection hd with hd2; subst hd2; exact ⟨by decide, by decide⟩)
  have hnodup : (w3Sites.filterMap (fun q => q.2.declaredName)).Nodup := by decide
  have := c3_forward_only_visibility w3Ctx w3Sites "" w3Outs w3St hok hvalid hnodup 1
    (by decide)
  rw [this]
  rfl

/-! ## C10 -/

/-- C10: a resolution request with no importer is declined (the resolveId
hook returns nothing), even when the requested id is a registered virtual
stylesheet path. -/
theorem c10_no_importer_declines (cssList : List (String × String)) (root id : String)
    (_hreg : mapHas cssList id = true) :
    resolveId cssList root id none = none := rfl

/-- Witness for C10 at a concretely registered stylesheet path. -/
theorem c10_witness :
    mapHas [("/src/box-1.acab.css", ".x\x7b\x7d")] "/src/box-1.acab.css" = true ∧
    resolveId [("/src/box-1.acab.css", ".x\x7b\x7d")] "/root" "/src/box-1.acab.css" none = none :=
  ⟨by decide, c10_no_importer_declines _ _ _ (by decide)⟩

/-! ## C2 -/

/-- C2 (code bug): at the no-interpolation template `` css`color:red` `` the
passthrough branch computes `rawTemplate.slice(1, rawTemplate.length - 2)`,
which removes the opening delimiter, the closing delimiter AND the final body
character, yielding "color:re"; the claimed delimiters-only removal yields
"color:red". The two differ. -/
theorem c2_passthrough_truncates_last_char :
    passthroughContents (jsTrim "`color:red`") = "color:re" ∧
    delimitersRemoved (jsTrim "`color:red`") = "color:red" ∧
    passthroughContents (jsTrim "`color:red`") ≠ delimitersRemoved (jsTrim "`color:red`") := by
  refine ⟨rfl, rfl, ?_⟩
  decide

/-! ## C1 -/

/-- C1 counterexample: two sites with byte-identical resolved CSS bodies but
different declared names receive different generated class names (the
declared-name prefix is part of the class name). -/
theorem c1_counterexample :
    (processCss idPostcss "color:red" "box" false).2 ≠
      (processCss idPostcss "color:red" "foo" false).2 := by
  decide

/-- C1 (amended): for byte-identical resolved CSS bodies the generated class
names share the identical hash suffix — the class name is
`<prefix>-<hash(body)>`, a function of body and prefix only (no file input) —
and the full class names are identical exactly when the prefixes also
coincide. -/
theorem c1_hash_suffix_deterministic (p1 p2 : PostcssPass) (body1 body2 name1 name2 : String)
    (s1 s2 : Bool) (hbody : body1 = body2) :
    (processCss p1 body1 name1 s1).2 = name1 ++ "-" ++ hash body1 ∧
    (processCss p2 body2 name2 s2).2 = name2 ++ "-" ++ hash body1 ∧
    (name1 = name2 → (processCss p1 body1 name1 s1).2 = (processCss p2 body2 name2 s2).2) := by
  subst hbody
  exact ⟨rfl, rfl, fun h => by subst h; rfl⟩

/-- Witness for C1 (amended) at a concrete body and two prefixes. -/
theorem c1_witness :
    ("color:red" : String) = "color:red" ∧
    (processCss idPostcss "color:red" "box" false).2 = "box" ++ "-" ++ hash "color:red" :=
  ⟨rfl, (c1_hash_suffix_deterministic idPostcss idPostcss "color:red" "color:red"
    "box" "foo" false false rfl).1⟩

/-! ## C4 -/

/-- C4: the assembled pre-flattening output places the body's directive lines
(in original relative order: they form a sublist of the body's lines) before
the wrapping class rule, wraps exactly the non-directive lines, and the
content hash is computed over the full body text including directive lines. -/
theorem c4_directive_partition_and_hash (p : PostcssPass) (body name : String) (isScss : Bool) :
    (processCss p body name isScss).1 = p isScss (specAssembled body name) ∧
    List.Sublist ((splitLines body).filter isImportOrUse) (splitLines body) ∧
    (processCss p body name isScss).2 = name ++ "-" ++ hash body := by
  refine ⟨?_, List.filter_sublist _, rfl⟩
  show p isScss _ = p isScss _
  congr 1
  apply String.ext
  simp [specAssembled, directiveBlock, nonDirectiveBody, strDataAppend, List.append_assoc]

/-! ## C5 -/

/-- C5: the synthetic program emits the generated-class declarations after
the whole outer-scope binding source (first conjunct, with the source's exact
separators), and — under the modelled declaration-order semantics — a name
bound in the generated declarations evaluates to its generated value even
when the outer declarations also bind it (second conjunct). -/
theorem c5_generated_bindings_shadow_outer (expression allVarDeclarations : String)
    (outerDecls generated : List (String × String)) (n v : String)
    (hgen : lastDeclWins generated n = some v) :
    syntheticProgram expression allVarDeclarations generated =
      allVarDeclarations ++ ("\n\n\t\t" ++ generatedClassesDecls generated ++
        "\n\n\t\tmodule.exports = (" ++ expression ++ ");") ∧
    lastDeclWins (outerDecls ++ generated) n = some v := by
  constructor
  · apply String.ext
    simp [syntheticProgram, strDataAppend, List.append_assoc]
  · show (outerDecls ++ generated).foldl (declUpd n) none = some v
    rw [List.foldl_append, foldl_declUpd_init, hgen]

/-- Witness for C5: `box` bound both in the outer source and as a generated
class; the generated binding wins. -/
theorem c5_witness :
    (syntheticProgram "`$\x7bbox\x7d`" "var box = 2;" [("box", ":where(.box-1)")] =
      "var box = 2;" ++ ("\n\n\t\t" ++ generatedClassesDecls [("box", ":where(.box-1)")] ++
        "\n\n\t\tmodule.exports = (" ++ "`$\x7bbox\x7d`" ++ ");")) ∧
    lastDeclWins ([("box", "2")] ++ [("box", ":where(.box-1)")]) "box" =
      some ":where(.box-1)" :=
  c5_generated_bindings_shadow_outer "`$\x7bbox\x7d`" "var box = 2;" [("box", "2")]
    [("box", ":where(.box-1)")] "box" ":where(.box-1)" (by decide)

/-! ## C7 -/

/-- C7 counterexample: the zero-specificity wrapping cannot be configured off
through the plugin's options — for every `Options` value, processing a named
site registers the :where-wrapped selector reference. -/
theorem c7_counterexample :
    ¬ ∃ o : Options,
      (processSites (c7Ctx o) [(0, c7Site)] ⟨"", []⟩).map (fun r => r.2.generatedClasses) ≠
        Except.ok [("box", ":where(.box-" ++ hash "color:red" ++ ")")] := by
  rintro ⟨o, hne⟩
  apply hne
  have h : ∀ b1 b2 : Bool,
      (processSites
        { evaluateExpressions := b1, resolveImports := b2, inlineResult := "",
          run := runNoval, postcssPass := idPostcss, scssImportName := none,
          fileId := "/src/app.jsx" }
        [(0, c7Site)] ⟨"", []⟩).map (fun r => r.2.generatedClasses) =
        Except.ok [("box", ":where(.box-" ++ hash "color:red" ++ ")")] := by
    intro b1 b2
    cases b1 <;> cases b2 <;> rfl
  exact h (optEvaluateExpressions o) (optResolveImports o)

/-- C7 (amended): the selector reference registered for a named site is the
generated class selector wrapped in the zero-specificity `:where` guard, and
this is governed by the hardcoded module constant `useWhere = true`, not by
any plugin option (the `Options` type carries no wrapping switch, as the
counterexample shows for every options value). -/
theorem c7_amended_guard_hardcoded :
    useWhere = true ∧
    ∀ className : String, selectorRefStr className = ":where(." ++ className ++ ")" :=
  ⟨rfl, fun _ => rfl⟩

/-! ## C6 -/

/-- C6 counterexample: on a file whose site evaluates to the non-string 42,
the transform does fail with no partial rewrite, but the raised error is the
downstream split TypeError, and it does not include the original expression
text (the site's template literal). -/
theorem c6_counterexample :
    transform {} runNum idPostcss "" "/src/app.jsx" c6File = .error splitTypeError ∧
    isSubstrOf "`$\x7bx\x7dcolor`" splitTypeError = false :=
  ⟨rfl, by decide⟩

/-- C6 (amended): a site whose expression evaluation yields a non-string
value makes the whole file's transform fail — the unchecked value reaches the
CSS compiler, which raises the split TypeError, aborting the loop so that no
partially rewritten source is emitted; the raised error is that fixed
TypeError message, which does not carry the expression text. -/
theorem c6_nonstring_eval_fails_file (ctx : SiteCtx) (idx : Nat) (site : TemplateSite)
    (rest : List (Nat × TemplateSite)) (st : St) (v : JSVal)
    (hE : ctx.evaluateExpressions = true) (hx : site.exprCount ≠ 0)
    (hrun : ctx.run (syntheticProgram (jsTrim site.quasiRaw)
        (if ctx.resolveImports && st.inlinedVars == "" then ctx.inlineResult
         else st.inlinedVars)
        st.generatedClasses) = .ok v)
    (hns : ∀ s, v ≠ JSVal.str s) :
    processSites ctx ((idx, site) :: rest) st = .error splitTypeError := by
  have hxb : (site.exprCount != 0) = true := by simpa using hx
  simp only [processSites, processOneSite, processTemplateLiteral, evalWithEsbuild, hE, hxb,
    Bool.true_and, if_true, apply_ite St.inlinedVars, apply_ite St.generatedClasses, ite_self]
  rw [hrun]
  cases v with
  | str s => exact absurd rfl (hns s)
  | num n => rfl
  | noval => rfl

/-- Witness for C6 (amended) with a concrete evaluator returning 42. -/
theorem c6_witness :
    processSites w6Ctx [(0, w6Site)] ⟨"", []⟩ = .error splitTypeError :=
  c6_nonstring_eval_fails_file w6Ctx 0 w6Site [] ⟨"", []⟩ (.num 42) rfl (by decide) rfl
    (fun s h => JSVal.noConfusion h)

/-! ## C8 -/

/-- C8 counterexample: a file whose only style-package import uses a default
specifier has no recognized css/scss import, yet the transform throws (the
unguarded `imported.name` destructuring) instead of returning the file
unmodified. -/
theorem c8_counterexample :
    transform {} runNoval idPostcss "" "/src/app.jsx" c8File =
      .error undefinedNameTypeError := rfl

/-- C8 (amended): a file whose recognized-import detection finds no
css/scss-bearing import statement, or finds some but no template site tagged
with a recognized alias, is left completely unmodified and registers no
stylesheet entries (`.ok none`) — provided the detection pass itself does not
throw, which holds whenever every style-package import uses only named
specifiers (a default or namespace specifier makes the transform throw, as
the counterexample shows). -/
theorem c8_identity_transform (o : Options) (run : RunProgram) (p : PostcssPass)
    (inl fileId : String) (chunks : List Chunk) (info : ImportsInfo)
    (hfind : findEcsstaticImports chunks = .ok info)
    (hnone : info.statements = [] ∨ matchedSites chunks (tagNamesOf info) = []) :
    transform o run p inl fileId chunks = .ok none := by
  simp only [transform]
  split
  · rfl
  · split
    · rfl
    · split
      · rename_i e heq
        rw [hfind] at heq
        exact absurd heq (by simp)
      · rename_i info2 heq
        rw [hfind] at heq
        obtain rfl : info2 = info := by injection heq with h2; exact h2.symm
        rcases hnone with h | h
        · simp [h]
        · simp [h, ite_self]

/-- Witness for C8 (amended): a file importing only an unrelated package,
with an unmatched `css`-tagged template, is returned unchanged. -/
theorem c8_witness :
    findEcsstaticImports w8File = .ok {} ∧
    transform {} runNoval idPostcss "" "/src/app.jsx" w8File = .ok none :=
  ⟨rfl, c8_identity_transform {} runNoval idPostcss "" "/src/app.jsx" w8File {} rfl
    (Or.inl rfl)⟩

/-! ## C9 -/

/-- C9 counterexample: in a file importing the css role under aliases `a`
then `b`, whose only template site is tagged with the earlier alias `a`, the
transform finds zero matching sites and returns the file unchanged — the
css-bearing import statements are NOT deleted, contrary to the claim. -/
theorem c9_counterexample :
    transform {} runNoval idPostcss "" "/src/app.jsx" c9File = .ok none := rfl

/-- C9 (amended): with aliases `a` (earlier) then `b` (later) for the css
role, only `b` is recognized; provided at least one site is tagged with the
recognized alias, the rewritten output deletes both css-bearing import
statements, leaves the `a`-tagged site's source text `rawA` in place
untransformed (so it has lost its import), and replaces the `b`-tagged site
with its quoted class name; when no site is tagged with the recognized alias
the transform instead returns the file unchanged (see the counterexample). -/
theorem c9_last_alias_recognized (a b rawA : String) (hab : (a == b) = false) :
    transform {} runNoval idPostcss "" "/src/app.jsx" (c9Chunks a b rawA) =
      .ok (some ("T0" ++ (rawA ++ ("T1" ++ ("\"box-" ++ hash "color:red" ++ "\"" ++
          ("T2" ++ ("import \"./box-" ++ hash "color:red" ++ ".acab.css\";\n"))))),
        [c9Entry])) := by
  have hmatched : matchedSites (c9Chunks a b rawA) [b] =
      [(5, ⟨b, some "box", "`color:red;`", 0⟩)] := by
    simp [matchedSites, c9Chunks, List.enum, List.enumFrom, List.contains, List.elem, hab]
  have step : transform {} runNoval idPostcss "" "/src/app.jsx" (c9Chunks a b rawA) =
      (if (matchedSites (c9Chunks a b rawA) [b]).isEmpty then Except.ok none
       else
        match processSites c9Ctx (matchedSites (c9Chunks a b rawA) [b]) ⟨"", []⟩ with
        | .error e => .error e
        | .ok r =>
          .ok (some (render (c9Chunks a b rawA) [0, 1] r.1,
            r.1.map (fun o => (o.cssPath, o.css))))) := rfl
  rw [step, hmatched]
  have hscss : (some b == (none : Option String)) = false := rfl
  have hone : processOneSite c9Ctx 5 ⟨b, some "box", "`color:red;`", 0⟩ ⟨"", []⟩ =
      .ok (c9OutB, ⟨"", [("box", ":where(.box-" ++ hash "color:red" ++ ")")]⟩) := by
    simp only [processOneSite, c9Ctx, hscss]
    rfl
  have hps : processSites c9Ctx [(5, ⟨b, some "box", "`color:red;`", 0⟩)] ⟨"", []⟩ =
      .ok ([c9OutB], ⟨"", [("box", ":where(.box-" ++ hash "color:red" ++ ")")]⟩) := by
    simp only [processSites, hone]
  rw [if_neg (by simp), hps]
  show Except.ok (some (render (c9Chunks a b rawA) [0, 1] [c9OutB], [c9Entry])) = _
  refine congrArg (fun s => Except.ok (some (s, [c9Entry]))) ?_
  apply String.ext
  simp [render, c9Chunks, chunkOut, c9OutB, List.enum, List.enumFrom, String.join,
    strDataAppend, List.append_assoc]

/-- Witness for C9 (amended) at concrete aliases `a` and `b`. -/
theorem c9_witness :
    transform {} runNoval idPostcss "" "/src/app.jsx" (c9Chunks "a" "b" "a`x`") =
      .ok (some ("T0" ++ ("a`x`" ++ ("T1" ++ ("\"box-" ++ hash "color:red" ++ "\"" ++
          ("T2" ++ ("import \"./box-" ++ hash "color:red" ++ ".acab.css\";\n"))))),
        [c9Entry])) :=
  c9_last_alias_recognized "a" "b" "a`x`" (by decide)

end Ecsstatic
